import Mathlib

/-!
Verification of the BrowserSandbox library (react-sandbox).

This file gives a shallow embedding of the canonical `BrowserSandbox`
implementation (class `BrowserSandbox` with `start`, `stop`, `unmount`,
`build`, the module-level helpers `sanitize`, `framework`, `initIframe`,
and the message-listener protocol) and proves or refutes the frozen
specification claims about it.

Strings are embedded as `List Char`; JavaScript string concatenation is
`++`, and `String.replace(/\x2f>|<\x2f/g, '')` is the left-to-right,
non-overlapping deletion pass `sanitize` below.  Brace characters inside
string literals are written with the escapes \x7b and \x7d.

The stateful part of the class (iframe creation and reuse, the sandbox
DOMTokenList, srcdoc assignment, export injection into the iframe's
window, appending to document.body, window message listeners and their
dispatch, and promise settlement) is embedded as explicit state passing
over a `World` record; one `World` holds the single sandbox instance the
claims are about, the created iframes, the host document body, the list
of registered window message listeners, and the log of listener firings
and promise settlements.
-/

namespace BrowserSandbox

/-- Characters of a Lean string literal, used to write JS strings as `List Char`. -/
def lit (s : String) : List Char := s.data

/-- Pattern match at the head of a character list (the anchored test a regex
alternative performs at one scan position). -/
def isPre : List Char → List Char → Bool
  | [], _ => true
  | _ :: _, [] => false
  | a :: as, b :: bs => a == b && isPre as bs

/-- Whether `pat` occurs as a contiguous substring anywhere in `s`. -/
def occurs (pat : List Char) : List Char → Bool
  | [] => isPre pat []
  | c :: rest => isPre pat (c :: rest) || occurs pat rest

/-- Number of positions of `s` at which `pat` occurs as a contiguous substring. -/
def countOccs (pat : List Char) : List Char → Nat
  | [] => 0
  | c :: rest => (if isPre pat (c :: rest) then 1 else 0) + countOccs pat rest

/-- The sequence `<\x2f` that opens an HTML closing tag. -/
def tagClose : List Char := lit "</"

/-- The self-closing tag marker `\x2f>`. -/
def selfClose : List Char := lit "/>"

/-- `sanitize` from src/unnamed/part_002 line 208 (identical in
src/src/index.ts line 148): one global left-to-right pass of
`script.replace(...)` deleting each non-overlapping occurrence of the
self-closing marker or of an opening `<\x2f` sequence.  The regex engine
scans position by position; after a match it resumes right after the
deleted characters without rescanning earlier output. -/
def sanitize : List Char → List Char
  | [] => []
  | [c] => [c]
  | c1 :: c2 :: rest =>
    if c1 == '/' && c2 == '>' then sanitize rest
    else if c1 == '<' && c2 == '/' then sanitize rest
    else c1 :: sanitize (c2 :: rest)

/-- One `<script src="...">` dependency tag, as produced by
`this.dependencies.map(...)` in `build` (part_002 line 172). -/
def depTag (d : List Char) : List Char :=
  lit "<script src=\"" ++ d ++ lit "\"></script>"

/-- Text of the `framework` template (part_002 lines 179-192) before the
interpolated script. -/
def frameworkPre : List Char :=
  lit "\n<script>\n(function()\x7b\n  var p;\n  try \x7b\n    p = Promise.resolve((function() \x7b\n      "

/-- Text of the `framework` template after the interpolated script. -/
def frameworkSuf : List Char :=
  lit "\n    \x7d)());\n  \x7d catch (e) \x7b\n    p = Promise.reject(e);\n  \x7d\n  window.parent.postMessage(p, '*');\n\x7d)()\n</script>"

/-- `framework` from part_002: wraps the (already sanitized) script so its
return value or thrown error settles a promise that is posted to the parent. -/
def framework (script : List Char) : List Char :=
  frameworkPre ++ script ++ frameworkSuf

/-- JavaScript `Array.prototype.join('')` over a list of strings. -/
def joinAll : List (List Char) → List Char
  | [] => []
  | x :: xs => x ++ joinAll xs

/-- `BrowserSandbox#build` (part_002 lines 170-175): sanitize the script,
render one script tag per dependency, wrap the payload with `framework`,
and assemble the skeleton document. -/
def build (dependencies : List (List Char)) (script : List Char) : List Char :=
  lit "<html><body>" ++ joinAll (dependencies.map depTag)
    ++ framework (sanitize script) ++ lit "</body></html>"

/-! ### The sandbox capability list

`iframe.sandbox` is a DOMTokenList: `add` appends a token unless already
present, `remove` deletes it.  `start` (part_002 lines 112-113) performs
`sandbox.add('allow-scripts', ...this.permissions)` and then
`sandbox.remove('allow-same-origin')`. -/

/-- `DOMTokenList.add` with one token: append it if not already present. -/
def tokenAdd (l : List String) (t : String) : List String :=
  if t ∈ l then l else l ++ [t]

/-- `DOMTokenList.add` with several tokens, applied left to right. -/
def tokenAddAll (l : List String) (ts : List String) : List String :=
  ts.foldl tokenAdd l

/-- `DOMTokenList.remove`: delete the token from the list. -/
def tokenRemove (l : List String) (t : String) : List String :=
  l.filter (fun x => x ≠ t)

/-- The capability configuration `start` applies to the iframe's sandbox
token list (part_002 lines 112-113): add `allow-scripts` and all declared
permissions, then remove `allow-same-origin`. -/
def configureSandbox (initial : List String) (permissions : List String) : List String :=
  tokenRemove (tokenAddAll initial ("allow-scripts" :: permissions)) "allow-same-origin"

example : sanitize (lit "var a = 1;") = lit "var a = 1;" := by decide
example : sanitize (lit "a</b/>c") = lit "abc" := by decide
example : sanitize (lit "<<//script>") = lit "</script>" := by decide
example : occurs tagClose (sanitize (lit "<<//script>")) = true := by decide
example : configureSandbox [] ["allow-same-origin", "allow-popups"]
    = ["allow-scripts", "allow-popups"] := by decide

/-! ### Exported values and the injection step

`start` (part_002 lines 128-136) walks `this.exports`; a value that is an
`instanceof Node` is not assigned into the iframe's window — a console
warning is recorded instead — while every other value is assigned. -/

/-- A value in the exports mapping: either a DOM node or any other datum. -/
inductive Value where
  | node : Nat → Value
  | plain : Nat → Value
  deriving DecidableEq

/-- The `instanceof Node` test used by the injection guard. -/
def Value.isNode : Value → Bool
  | .node _ => true
  | .plain _ => false

/-- The console warning text emitted for a refused export (part_002 line 131). -/
def injectionWarning (name : String) : String :=
  name ++ " in exports appears to be an HTML element. Untrusted code could use this to modify your document."

/-- The export-injection loop of `start`: returns the entries actually
assigned into the iframe's window, in order, and the warnings recorded. -/
def injectExports (exports : List (String × Value)) :
    List (String × Value) × List String :=
  exports.foldl
    (fun acc e =>
      if e.2.isNode then (acc.1, acc.2 ++ [injectionWarning e.1])
      else (acc.1 ++ [e], acc.2))
    ([], [])

/-- Property assignment on the iframe's window object: overwrite an existing
binding of the same name, otherwise append. -/
def setProp (props : List (String × Value)) (e : String × Value) : List (String × Value) :=
  if props.any (fun p => p.1 == e.1) then
    props.map (fun p => if p.1 == e.1 then e else p)
  else props ++ [e]

/-- Assign a list of entries into the window object, left to right. -/
def setProps (props : List (String × Value)) (es : List (String × Value)) :
    List (String × Value) :=
  es.foldl setProp props

/-! ### The world model

One `World` holds the single `BrowserSandbox` instance under test, the
iframes created so far (keyed by an identity that also stands for the
iframe's WindowProxy, which is stable across navigations of the same
element), the host document body (the ordered ids of attached iframes),
the window's registered message listeners, and logs of listener firings
and promise settlements.  `fired` records every invocation of a
listener's settle path; `settled` records promise outcomes, at most one
per run, mirroring the settle-once semantics of a JS promise. -/

/-- The outcome value carried by the message a run's document posts. -/
inductive Outcome where
  | success : Nat → Outcome
  | failure : Nat → Outcome
  deriving DecidableEq

/-- One registered window `message` listener; `run` identifies the pending
run whose promise the listener settles. -/
structure Listener where
  run : Nat
  deriving DecidableEq

/-- A cross-context message event: `origin` is `none` for the `null` origin
of an opaque context, `source` is the identity of the posting WindowProxy. -/
structure Msg where
  origin : Option String
  source : Nat
  payload : Outcome
  deriving DecidableEq

/-- The state of one iframe element. -/
structure Frame where
  srcdoc : List Char
  sandbox : List String
  windowProps : List (String × Value)
  deriving DecidableEq

/-- The fields of the `BrowserSandbox` instance (part_002 lines 66-86). -/
structure Inst where
  exports : List (String × Value)
  dependencies : List (List Char)
  permissions : List String
  _iframe : Option Nat
  deriving DecidableEq

/-- The world: instance, created frames, document body, window listeners,
unload hooks, and the firing/settlement logs. -/
structure World where
  inst : Inst
  frames : List (Nat × Frame)
  body : List Nat
  listeners : List Listener
  unloadHooks : List (Nat × Nat)
  fired : List (Nat × Outcome)
  settled : List (Nat × Outcome)
  warnings : List String
  nextId : Nat
  deriving DecidableEq

/-- `initIframe` (part_002 lines 197-205): a fresh zero-sized iframe; its
sandbox token list starts empty and nothing is assigned on its window. -/
def initFrame : Frame :=
  { srcdoc := [], sandbox := [], windowProps := [] }

/-- Apply `g` to the frame with identity `fid`. -/
def updateFrame (w : World) (fid : Nat) (g : Frame → Frame) : World :=
  { w with frames := w.frames.map (fun p => if p.1 = fid then (p.1, g p.2) else p) }

/-- `BrowserSandbox#stop` (part_002 lines 153-155):
`this._iframe && (this._iframe.srcdoc = '')` — blank the active iframe's
content if the instance holds one, otherwise do nothing. -/
def stopM (w : World) : World :=
  match w.inst._iframe with
  | none => w
  | some fid => updateFrame w fid (fun fr => { fr with srcdoc := [] })

/-- `BrowserSandbox#unmount` (part_002 lines 160-164): remove the iframe
from its parent.  (The source dereferences `parentNode!`; the claims only
exercise the attached case, which this models.) -/
def unmountM (w : World) : World :=
  match w.inst._iframe with
  | none => w
  | some fid => { w with body := w.body.erase fid }

/-- The error message thrown when the sandbox attribute is unsupported
(part_002 line 110). -/
def sandboxUnsupportedMsg : String := "the iframe sandbox attribute is unsupported"

/-- The executor function passed to `new Promise` by `start` (part_002
lines 104-147), for a run identified by `runId`.  `sandboxSupported`
models whether the host iframe implements the `sandbox` attribute.  The
result pairs the world after the executor ran with the error it threw,
if it threw.  Steps, in source order: `this.stop()`; reuse or create the
iframe; the sandbox-support check (which releases the iframe reference
and throws); capability configuration; srcdoc assignment; export
injection; appending the iframe to the body if not attached; registering
the message listener; registering the unload hook that removes it. -/
def startExecutor (sandboxSupported : Bool) (runId : Nat) (script : List Char)
    (w0 : World) : World × Option String :=
  let w1 := stopM w0
  let fid := match w1.inst._iframe with
    | some f => f
    | none => w1.nextId
  let w2 := match w1.inst._iframe with
    | some _ => w1
    | none =>
      { w1 with
        frames := w1.frames ++ [(fid, initFrame)]
        nextId := w1.nextId + 1
        inst := { w1.inst with _iframe := some fid } }
  if sandboxSupported = false then
    ({ w2 with inst := { w2.inst with _iframe := none } }, some sandboxUnsupportedMsg)
  else
    let w3 := updateFrame w2 fid
      (fun fr => { fr with sandbox := configureSandbox fr.sandbox w2.inst.permissions })
    let w4 := updateFrame w3 fid
      (fun fr => { fr with srcdoc := build w3.inst.dependencies script })
    let inj := injectExports w4.inst.exports
    let w5 := updateFrame w4 fid
      (fun fr => { fr with windowProps := setProps fr.windowProps inj.1 })
    let w6 := { w5 with warnings := w5.warnings ++ inj.2 }
    let w7 := if fid ∈ w6.body then w6 else { w6 with body := w6.body ++ [fid] }
    let w8 := { w7 with
      listeners := w7.listeners ++ [{ run := runId }]
      unloadHooks := w7.unloadHooks ++ [(fid, runId)] }
    (w8, none)

/-- The state of the promise `start` returns, right after `start` returns. -/
inductive RunPromise where
  | pending : RunPromise
  | rejected : String → RunPromise
  deriving DecidableEq

/-- What `start` hands back to the caller. -/
structure StartResult where
  world : World
  promise : RunPromise
  deriving DecidableEq

/-- `BrowserSandbox#start` (part_002 lines 103-148): `return new
Promise(executor)`.  The `Promise` constructor runs the executor at once
and catches any exception it throws, turning it into a rejection of the
returned promise; `start` itself therefore always returns normally. -/
def startM (sandboxSupported : Bool) (runId : Nat) (script : List Char)
    (w : World) : StartResult :=
  match startExecutor sandboxSupported runId script w with
  | (w2, some e) => { world := w2, promise := .rejected e }
  | (w2, none) => { world := w2, promise := .pending }

/-- The filter of `messageListener` (part_002 line 120):
`e.origin === null && this._iframe && e.source === this._iframe.contentWindow`.
Every listener registered by this instance closes over the same `this`,
so the test reads the instance's current iframe at delivery time. -/
def qualifies (w : World) (m : Msg) : Bool :=
  decide (m.origin = none) && decide (w.inst._iframe = some m.source)

/-- Settle a run's promise: a JS promise ignores a second resolution, so
the outcome is recorded only if the run has no outcome yet. -/
def settleOnce (s : List (Nat × Outcome)) (e : Nat × Outcome) : List (Nat × Outcome) :=
  if s.any (fun x => x.1 == e.1) then s else s ++ [e]

/-- The body of one `messageListener` (part_002 lines 118-125) reacting to
event `m`: if the filter passes, remove this listener from the window,
log the firing, and settle the run's promise with the message payload. -/
def runListener (w : World) (m : Msg) (l : Listener) : World :=
  if qualifies w m then
    { w with
      listeners := w.listeners.filter (fun x => x.run ≠ l.run)
      fired := w.fired ++ [(l.run, m.payload)]
      settled := settleOnce w.settled (l.run, m.payload) }
  else w

/-- One step of event dispatch: invoke listener `l` unless an earlier
invocation already removed it (DOM semantics: a listener removed during
dispatch of an event is not invoked for that event). -/
def dispatchStep (m : Msg) (acc : World) (l : Listener) : World :=
  if acc.listeners.any (fun x => x.run == l.run) then runListener acc m l
  else acc

/-- Dispatch of one `message` event on the window: the listeners present
when the event fires are invoked in registration order. -/
def dispatch (m : Msg) (w : World) : World :=
  w.listeners.foldl (dispatchStep m) w

/-- Deliver a queue of message events in order. -/
def deliverAll (msgs : List Msg) (w : World) : World :=
  msgs.foldl (fun acc m => dispatch m acc) w

/-- The `unload` handler registration (part_002 lines 144-146): when the
document inside frame `fid` unloads, every handler registered on that
frame's window runs and removes its run's message listener. -/
def fireUnload (fid : Nat) (w : World) : World :=
  let runs := (w.unloadHooks.filter (fun h => h.1 == fid)).map (fun h => h.2)
  { w with
    listeners := w.listeners.filter (fun l => ¬ runs.contains l.run)
    unloadHooks := w.unloadHooks.filter (fun h => h.1 ≠ fid) }

/-- Number of logged listener firings for run `r`. -/
def firedCount (w : World) (r : Nat) : Nat :=
  w.fired.countP (fun e => decide (e.1 = r))

/-- Number of armed listeners for run `r`. -/
def listCount (w : World) (r : Nat) : Nat :=
  w.listeners.countP (fun l => decide (l.run = r))

/-- A world with a freshly constructed instance and an untouched document. -/
def emptyWorld : World :=
  { inst := { exports := [], dependencies := [], permissions := [], _iframe := none }
    frames := [], body := [], listeners := [], unloadHooks := []
    fired := [], settled := [], warnings := [], nextId := 0 }

example :
    (startM true 1 (lit "return 1+1") emptyWorld).world.body = [0] := by decide
example :
    (stopM (startM true 1 (lit "return 1+1") emptyWorld).world).body = [0] := by decide
example :
    (startM false 1 (lit "x") emptyWorld).promise = .rejected sandboxUnsupportedMsg := by
  decide

/-! ### Lemmas about the sanitizer -/

/-- One-step unfolding of `occurs` on a cons cell. -/
theorem occurs_cons (pat : List Char) (c : Char) (r : List Char) :
    occurs pat (c :: r) = (isPre pat (c :: r) || occurs pat r) := rfl

/-- The sanitizer never lengthens its input. -/
theorem sanitize_length (s : List Char) : (sanitize s).length ≤ s.length := by
  induction s using sanitize.induct with
  | case1 => simp [sanitize]
  | case2 c => simp [sanitize]
  | case3 c1 c2 rest h ih => simp [sanitize, h]; omega
  | case4 c1 c2 rest h1 h2 ih => simp [sanitize, h1, h2]; omega
  | case5 c1 c2 rest h1 h2 ih =>
    simp [sanitize, h1, h2]
    simp at ih
    omega

/-- A string containing a tag-closing or self-closing sequence strictly
shrinks under the sanitizer. -/
theorem sanitize_lt : ∀ s : List Char,
    (occurs tagClose s = true ∨ occurs selfClose s = true) →
    (sanitize s).length < s.length := by
  intro s
  induction s using sanitize.induct with
  | case1 => intro h; simp [occurs, isPre, tagClose, selfClose, lit] at h
  | case2 c => intro h; simp [occurs, isPre, tagClose, selfClose, lit] at h
  | case3 c1 c2 rest h ih =>
    intro _
    have := sanitize_length rest
    simp [sanitize, h]
    omega
  | case4 c1 c2 rest h1 h2 ih =>
    intro _
    have := sanitize_length rest
    simp [sanitize, h1, h2]
    omega
  | case5 c1 c2 rest h1 h2 ih =>
    intro h
    have hstep : sanitize (c1 :: c2 :: rest) = c1 :: sanitize (c2 :: rest) := by
      simp [sanitize, h1, h2]
    simp only [Bool.and_eq_true, beq_iff_eq, not_and] at h1 h2
    have hocc : occurs tagClose (c2 :: rest) = true ∨ occurs selfClose (c2 :: rest) = true := by
      rcases h with h | h
      · left
        simp only [occurs, tagClose, lit, isPre, Bool.or_eq_true, Bool.and_eq_true,
          beq_iff_eq] at h ⊢
        tauto
      · right
        simp only [occurs, selfClose, lit, isPre, Bool.or_eq_true, Bool.and_eq_true,
          beq_iff_eq] at h ⊢
        tauto
    have hlt := ih hocc
    rw [hstep]
    simp at hlt ⊢
    omega

/-- A string free of tag-closing and self-closing sequences passes through
the sanitizer unchanged. -/
theorem sanitize_id : ∀ s : List Char,
    occurs tagClose s = false → occurs selfClose s = false → sanitize s = s := by
  intro s
  induction s using sanitize.induct with
  | case1 => intro _ _; rfl
  | case2 c => intro _ _; rfl
  | case3 c1 c2 rest h ih =>
    intro _ h2
    exfalso
    simp only [Bool.and_eq_true, beq_iff_eq] at h
    simp [occurs, selfClose, lit, isPre, h.1, h.2] at h2
  | case4 c1 c2 rest h1 h2 ih =>
    intro hc _
    exfalso
    simp only [Bool.and_eq_true, beq_iff_eq] at h2
    simp [occurs, tagClose, lit, isPre, h2.1, h2.2] at hc
  | case5 c1 c2 rest h1 h2 ih =>
    intro hc hs
    have hstep : sanitize (c1 :: c2 :: rest) = c1 :: sanitize (c2 :: rest) := by
      simp [sanitize, h1, h2]
    rw [occurs_cons, Bool.or_eq_false_iff] at hc hs
    have := ih hc.2 hs.2
    rw [hstep, this]

/-! ### Lemmas about the capability list and the document assembly -/

/-- Membership is preserved by `DOMTokenList.add`. -/
theorem mem_tokenAdd_of_mem {l : List String} {s : String} (t : String)
    (h : s ∈ l) : s ∈ tokenAdd l t := by
  unfold tokenAdd
  split
  · exact h
  · exact List.mem_append_left _ h

/-- The added token is a member after `DOMTokenList.add`. -/
theorem mem_tokenAdd_self (l : List String) (t : String) : t ∈ tokenAdd l t := by
  unfold tokenAdd
  split
  · assumption
  · simp

/-- Membership is preserved by adding a batch of tokens. -/
theorem mem_tokenAddAll_of_mem {l : List String} {s : String} (ts : List String)
    (h : s ∈ l) : s ∈ tokenAddAll l ts := by
  induction ts generalizing l with
  | nil => exact h
  | cons t ts ih => exact ih (mem_tokenAdd_of_mem t h)

/-- `join('')` distributes over list concatenation. -/
theorem joinAll_append (a b : List (List Char)) :
    joinAll (a ++ b) = joinAll a ++ joinAll b := by
  induction a with
  | nil => rfl
  | cons x xs ih => simp [joinAll, ih]

/-! ### Lemmas about message dispatch -/

/-- A listener invocation never changes the instance fields. -/
theorem runListener_inst (w : World) (m : Msg) (l : Listener) :
    (runListener w m l).inst = w.inst := by
  unfold runListener
  split <;> rfl

/-- One dispatch step never changes the instance fields. -/
theorem dispatchStep_inst (m : Msg) (acc : World) (l : Listener) :
    (dispatchStep m acc l).inst = acc.inst := by
  unfold dispatchStep
  split
  · exact runListener_inst acc m l
  · rfl

/-- The message filter only reads the instance, so it is stable under
listener invocations. -/
theorem qualifies_of_inst_eq {w w' : World} (m : Msg) (h : w'.inst = w.inst) :
    qualifies w' m = qualifies w m := by
  unfold qualifies
  rw [h]

/-- A listener does nothing on a message that fails its filter. -/
theorem runListener_id_of_not_qualifies {w : World} {m : Msg} (l : Listener)
    (h : qualifies w m = false) : runListener w m l = w := by
  unfold runListener
  rw [h]
  simp

/-- A non-qualifying message leaves the whole world untouched. -/
theorem dispatch_id_of_not_qualifies {w : World} {m : Msg}
    (h : qualifies w m = false) : dispatch m w = w := by
  unfold dispatch
  generalize w.listeners = ls
  induction ls with
  | nil => rfl
  | cons l rest ih =>
    have hstep : dispatchStep m w l = w := by
      unfold dispatchStep
      split
      · exact runListener_id_of_not_qualifies l h
      · rfl
    simp [List.foldl_cons, hstep, ih]

/-- Invoking a listener cannot increase `firings + armed listeners` for any
run: a firing removes the listener that produced it. -/
theorem dispatchStep_sum (m : Msg) (acc : World) (l : Listener) (r : Nat) :
    firedCount (dispatchStep m acc l) r + listCount (dispatchStep m acc l) r
      ≤ firedCount acc r + listCount acc r := by
  unfold dispatchStep
  split
  case isFalse => exact Nat.le_refl _
  case isTrue hany =>
    unfold runListener
    split
    case isFalse => exact Nat.le_refl _
    case isTrue hq =>
      unfold firedCount listCount
      simp only [List.countP_append]
      by_cases hr : l.run = r
      · subst hr
        have h1 : List.countP (fun e => decide (e.1 = l.run)) [(l.run, m.payload)] = 1 := by
          simp
        have h2 : List.countP (fun x => decide (x.run = l.run))
            (acc.listeners.filter (fun x => x.run ≠ l.run)) = 0 := by
          rw [List.countP_eq_zero]
          intro a ha
          have := (List.mem_filter.mp ha).2
          simpa using this
        have h3 : 0 < List.countP (fun x => decide (x.run = l.run)) acc.listeners := by
          rw [List.countP_pos_iff]
          rcases List.any_eq_true.mp hany with ⟨x, hx, hxr⟩
          exact ⟨x, hx, by simpa using hxr⟩
        omega
      · have h1 : List.countP (fun e => decide (e.1 = r)) [(l.run, m.payload)] = 0 := by
          simp [hr]
        have h2 : List.countP (fun x => decide (x.run = r))
            (acc.listeners.filter (fun x => x.run ≠ l.run))
            = List.countP (fun x => decide (x.run = r)) acc.listeners := by
          rw [List.countP_filter]
          apply List.countP_congr
          intro a _
          by_cases har : a.run = r
          · have hne : a.run ≠ l.run := by
              rw [har]
              exact fun hh => hr hh.symm
            simp [har, hne]
            exact fun hh => hr hh.symm
          · simp [har]
        omega

/-- Folding dispatch steps over any listener snapshot keeps the
`firings + armed listeners` budget. -/
theorem foldl_dispatchStep_sum (m : Msg) (r : Nat) :
    ∀ (ls : List Listener) (acc : World),
      firedCount (ls.foldl (dispatchStep m) acc) r
          + listCount (ls.foldl (dispatchStep m) acc) r
        ≤ firedCount acc r + listCount acc r := by
  intro ls
  induction ls with
  | nil => intro acc; exact Nat.le_refl _
  | cons l rest ih =>
    intro acc
    calc firedCount (rest.foldl (dispatchStep m) (dispatchStep m acc l)) r
          + listCount (rest.foldl (dispatchStep m) (dispatchStep m acc l)) r
        ≤ firedCount (dispatchStep m acc l) r + listCount (dispatchStep m acc l) r :=
          ih (dispatchStep m acc l)
      _ ≤ firedCount acc r + listCount acc r := dispatchStep_sum m acc l r

/-- One event dispatch keeps the `firings + armed listeners` budget. -/
theorem dispatch_sum (m : Msg) (w : World) (r : Nat) :
    firedCount (dispatch m w) r + listCount (dispatch m w) r
      ≤ firedCount w r + listCount w r :=
  foldl_dispatchStep_sum m r w.listeners w

/-- Delivering any queue of messages keeps the budget. -/
theorem deliverAll_sum (msgs : List Msg) (w : World) (r : Nat) :
    firedCount (deliverAll msgs w) r + listCount (deliverAll msgs w) r
      ≤ firedCount w r + listCount w r := by
  induction msgs generalizing w with
  | nil => exact Nat.le_refl _
  | cons m rest ih =>
    calc firedCount (deliverAll rest (dispatch m w)) r
          + listCount (deliverAll rest (dispatch m w)) r
        ≤ firedCount (dispatch m w) r + listCount (dispatch m w) r := ih (dispatch m w)
      _ ≤ firedCount w r + listCount w r := dispatch_sum m w r

/-! ### Lemmas about the lifecycle operations -/

/-- `stop` never touches the host document body. -/
theorem stopM_body (w : World) : (stopM w).body = w.body := by
  unfold stopM
  cases w.inst._iframe <;> rfl

/-- `stop` never touches the registered listeners. -/
theorem stopM_listeners (w : World) : (stopM w).listeners = w.listeners := by
  unfold stopM
  cases w.inst._iframe <;> rfl

/-- `stop` never touches the instance fields. -/
theorem stopM_inst (w : World) : (stopM w).inst = w.inst := by
  unfold stopM
  cases w.inst._iframe <;> rfl

/-- The export-injection fold, with its accumulators generalized. -/
theorem injectExports_go (es : List (String × Value)) (acc1 : List (String × Value))
    (acc2 : List String) :
    es.foldl
        (fun acc e =>
          if e.2.isNode then (acc.1, acc.2 ++ [injectionWarning e.1])
          else (acc.1 ++ [e], acc.2))
        (acc1, acc2)
      = (acc1 ++ es.filter (fun e => !(e.2.isNode)),
         acc2 ++ (es.filter (fun e => e.2.isNode)).map (fun e => injectionWarning e.1)) := by
  induction es generalizing acc1 acc2 with
  | nil => simp
  | cons e es ih =>
    cases hn : e.2.isNode <;> simp [List.filter_cons, hn, List.foldl_cons, ih]

/-! ## The claims -/

/-- C1: for every declared permissions list and every initial token list of
the (possibly reused or caller-supplied) iframe, the capability set that
`start` configures — add `allow-scripts` and the declared flags, then
remove `allow-same-origin` — always contains `allow-scripts` and never
contains `allow-same-origin`, even when the declared list contains
`allow-same-origin`. -/
theorem permissions_always_scripts_never_same_origin
    (initial declared : List String) :
    "allow-scripts" ∈ configureSandbox initial declared ∧
    "allow-same-origin" ∉ configureSandbox initial declared := by
  constructor
  · unfold configureSandbox tokenRemove
    apply List.mem_filter.mpr
    refine ⟨?_, by decide⟩
    show "allow-scripts" ∈ tokenAddAll initial ("allow-scripts" :: declared)
    unfold tokenAddAll
    rw [List.foldl_cons]
    exact mem_tokenAddAll_of_mem declared (mem_tokenAdd_self initial "allow-scripts")
  · intro hmem
    have := (List.mem_filter.mp hmem).2
    simp at this

/-- C2 counterexample: the single global replacement pass can recombine the
characters around a deleted match into a fresh tag-closing sequence, so
the sanitized text can still contain one.  Concretely the run-1 scan of
`<<\x2f\x2fscript>` deletes only the middle `<\x2f` and leaves
`<\x2fscript>`: the output of `sanitize` contains `<\x2f`, refuting the
claim that a single global replacement leaves no way for the sanitized
text to contain or recombine into a tag-closing sequence. -/
theorem sanitize_recombination_cex :
    sanitize (lit "<<//script>") = lit "</script>" ∧
    occurs tagClose (sanitize (lit "<<//script>")) = true := by
  decide

/-- C2 amended: the global replacement deletes every left-to-right
non-overlapping occurrence of `\x2f>` and `<\x2f`, but deletion can
recombine adjacent characters into a new tag-closing sequence, so the
sanitized output may still contain one.  The breakout guarantee only
holds in the fixpoint form: a script the sanitizer leaves unchanged
contains no tag-closing and no self-closing sequence at all. -/
theorem sanitize_fixpoint_no_tag_sequences (s : List Char)
    (h : sanitize s = s) :
    occurs tagClose s = false ∧ occurs selfClose s = false := by
  constructor
  · by_contra hx
    have hx' : occurs tagClose s = true := by
      cases hocc : occurs tagClose s
      · exact absurd hocc hx
      · rfl
    have := sanitize_lt s (Or.inl hx')
    rw [h] at this
    omega
  · by_contra hx
    have hx' : occurs selfClose s = true := by
      cases hocc : occurs selfClose s
      · exact absurd hocc hx
      · rfl
    have := sanitize_lt s (Or.inr hx')
    rw [h] at this
    omega

/-- Witness for the amended C2 at a concrete fixed script. -/
theorem sanitize_fixpoint_no_tag_sequences_witness :
    sanitize (lit "var a = 2; var b = a + a;") = lit "var a = 2; var b = a + a;" ∧
    (occurs tagClose (lit "var a = 2; var b = a + a;") = false ∧
     occurs selfClose (lit "var a = 2; var b = a + a;") = false) :=
  ⟨by decide, sanitize_fixpoint_no_tag_sequences (lit "var a = 2; var b = a + a;") (by decide)⟩

/-- C6: the injection step of `start` assigns into the isolated window
exactly the export entries whose value is not a DOM node, in declaration
order, and records one warning per refused DOM-node entry; the loop is
total, so the run proceeds past it. -/
theorem dom_node_exports_refused (exports : List (String × Value)) :
    (injectExports exports).1 = exports.filter (fun e => !(e.2.isNode)) ∧
    (injectExports exports).2
      = (exports.filter (fun e => e.2.isNode)).map (fun e => injectionWarning e.1) := by
  unfold injectExports
  rw [injectExports_go]
  simp

set_option maxRecDepth 20000 in
/-- C7 counterexample: the generated document does not contain exactly one
occurrence of the load tag per dependency: a script whose sanitized form
recombines into a closing tag can reproduce a full dependency tag inside
the wrapped payload.  With dependency `x` and the script
`<script src="x"><<\x2f\x2fscript>`, sanitization turns the tail into
`<\x2fscript>`, so the document contains the byte sequence
`<script src="x"><\x2fscript>` twice. -/
theorem dependency_tag_duplicated_by_payload_cex :
    countOccs (depTag (lit "x"))
        (build [lit "x"] (lit "<script src=\"x\"><<//script>")) = 2 := by
  decide

/-- C7 amended: for every dependency list and every script, the document
contains the load tag of each dependency entry, placed directly after the
tags of all earlier entries — hence in the same relative order as the
list — and all dependency tags come before the wrapped inline payload.
Exactness of the count can fail because the sanitized payload may itself
contain a dependency tag. -/
theorem build_dependency_tags_in_order (deps1 : List (List Char)) (d : List Char)
    (deps2 : List (List Char)) (s : List Char) :
    build (deps1 ++ d :: deps2) s
      = lit "<html><body>" ++ joinAll (deps1.map depTag) ++ depTag d
        ++ joinAll (deps2.map depTag) ++ framework (sanitize s)
        ++ lit "</body></html>" := by
  simp [build, List.map_append, joinAll_append, joinAll, List.append_assoc]

/-- C8: a script containing neither a tag-closing nor a self-closing
sequence passes through the sanitizer unchanged and therefore appears
verbatim, as a contiguous substring, in the generated document. -/
theorem build_contains_clean_script_verbatim (deps : List (List Char)) (s : List Char)
    (h1 : occurs tagClose s = false) (h2 : occurs selfClose s = false) :
    ∃ pre post, build deps s = pre ++ s ++ post := by
  refine ⟨lit "<html><body>" ++ joinAll (deps.map depTag) ++ frameworkPre,
          frameworkSuf ++ lit "</body></html>", ?_⟩
  rw [build, framework, sanitize_id s h1 h2]
  simp [List.append_assoc]

/-- Witness for C8 at a concrete clean script. -/
theorem build_contains_clean_script_verbatim_witness :
    occurs tagClose (lit "var c = 2 + 2;") = false ∧
    occurs selfClose (lit "var c = 2 + 2;") = false ∧
    ∃ pre post, build [lit "a.js"] (lit "var c = 2 + 2;") = pre ++ lit "var c = 2 + 2;" ++ post :=
  ⟨by decide, by decide,
   build_contains_clean_script_verbatim [lit "a.js"] (lit "var c = 2 + 2;")
     (by decide) (by decide)⟩

/-! ### Concrete worlds used by witnesses and counterexamples -/

/-- A world whose instance is bound to iframe 0 and has one armed listener
for run 5. -/
def chanDemo : World :=
  { emptyWorld with
    inst := { exports := [], dependencies := [], permissions := [], _iframe := some 0 }
    frames := [(0, initFrame)]
    body := [0]
    listeners := [{ run := 5 }] }

/-- A message whose origin marker is not the null origin. -/
def msgForeign : Msg := { origin := some "https://example.com", source := 0, payload := .success 1 }

/-- A qualifying message: null origin, posted by the bound iframe's window. -/
def msgQualif : Msg := { origin := none, source := 0, payload := .success 2 }

/-- A null-origin message posted by a different window than the bound iframe. -/
def msgOtherWindow : Msg := { origin := none, source := 4, payload := .failure 3 }

/-- The world after run 1 starts on a fresh instance. -/
def runOneWorld : World := (startM true 1 (lit "return 6*7") emptyWorld).world

/-- The world after run 2 starts on the same instance while run 1 is still
pending: `start` reuses the iframe, so both armed listeners are bound to
the same WindowProxy (identity 0). -/
def runTwoWorld : World := (startM true 2 (lit "return 1") runOneWorld).world

/-- The message run 1's document posted just before the second `start`
blanked it: null origin, source the shared WindowProxy of iframe 0,
carrying run 1's outcome.  It was queued before the second `start`
navigated the iframe, so it can be dispatched while run 2's listener is
armed and before the old document's unload handlers run. -/
def lateRunOneMsg : Msg := { origin := none, source := 0, payload := .success 42 }

/-- A world with an attached, populated iframe left over from an earlier run. -/
def priorRunWorld : World :=
  { emptyWorld with
    inst := { exports := [], dependencies := [], permissions := [], _iframe := some 0 }
    frames := [(0, { srcdoc := lit "<html><body>old</body></html>"
                     sandbox := ["allow-scripts"], windowProps := [] })]
    body := [0]
    nextId := 1 }

set_option maxRecDepth 20000 in
/-- C3 counterexample: starting a second run while the first is pending does
not stop a message produced by the first run from settling the second
run's promise.  The second `start` reuses the iframe, so run 2's listener
filters on the very WindowProxy run 1's document posted from; dispatching
run 1's late message in the reused-iframe world settles run 2's promise
with run 1's outcome. -/
theorem late_message_cross_run_leak_cex :
    (2, Outcome.success 42) ∈ (dispatch lateRunOneMsg runTwoWorld).settled ∧
    runTwoWorld.inst._iframe = runOneWorld.inst._iframe := by
  decide

/-- C3 amended: a pending run's promise can only be settled by a message
whose source is the window of the iframe the instance is currently bound
to.  A late first-run message therefore cannot settle the second run's
promise when the second run is bound to a different iframe (for example
after `unmount`); with the default iframe reuse the two windows coincide
and the leak of the counterexample is possible. -/
theorem foreign_source_message_ignored (w : World) (m : Msg)
    (h : w.inst._iframe ≠ some m.source) :
    (dispatch m w).settled = w.settled ∧ (dispatch m w).listeners = w.listeners := by
  have hq : qualifies w m = false := by
    unfold qualifies
    simp [h]
  rw [dispatch_id_of_not_qualifies hq]
  exact ⟨rfl, rfl⟩

/-- Witness for the amended C3: a message from a foreign window settles
nothing and removes no listener. -/
theorem foreign_source_message_ignored_witness :
    chanDemo.inst._iframe ≠ some msgOtherWindow.source ∧
    ((dispatch msgOtherWindow chanDemo).settled = chanDemo.settled ∧
     (dispatch msgOtherWindow chanDemo).listeners = chanDemo.listeners) :=
  ⟨by decide, foreign_source_message_ignored chanDemo msgOtherWindow (by decide)⟩

/-- C4: the channel of one run settles its promise at most once and ignores
non-matching traffic: a message failing the origin/source filter leaves
the world unchanged; a listener that fires on a qualifying message
detaches itself at once; and, as long as a run has at most one armed
listener, no message queue can ever make its settle path fire more than
one additional time. -/
theorem message_listener_one_shot (w : World) (m : Msg) (msgs : List Msg)
    (r : Nat) (l : Listener) :
    (qualifies w m = false → dispatch m w = w) ∧
    (qualifies w m = true → listCount (runListener w m l) l.run = 0) ∧
    (listCount w r ≤ 1 → firedCount (deliverAll msgs w) r ≤ firedCount w r + 1) := by
  refine ⟨fun h => dispatch_id_of_not_qualifies h, fun hq => ?_, fun hle => ?_⟩
  · have hrl : (runListener w m l).listeners
        = w.listeners.filter (fun x => x.run ≠ l.run) := by
      unfold runListener
      rw [hq]
      simp
    unfold listCount
    rw [hrl, List.countP_eq_zero]
    intro a ha
    have := (List.mem_filter.mp ha).2
    simpa using this
  · have hsum := deliverAll_sum msgs w r
    omega

/-- Witness for C4 on a concrete channel. -/
theorem message_listener_one_shot_witness :
    (qualifies chanDemo msgForeign = false ∧ dispatch msgForeign chanDemo = chanDemo) ∧
    (qualifies chanDemo msgQualif = true ∧
      listCount (runListener chanDemo msgQualif { run := 5 }) 5 = 0) ∧
    (listCount chanDemo 5 ≤ 1 ∧
      firedCount (deliverAll [msgQualif, msgQualif] chanDemo) 5
        ≤ firedCount chanDemo 5 + 1) :=
  ⟨⟨by decide, (message_listener_one_shot chanDemo msgForeign [] 5 { run := 5 }).1 (by decide)⟩,
   ⟨by decide, (message_listener_one_shot chanDemo msgQualif [] 5 { run := 5 }).2.1 (by decide)⟩,
   ⟨by decide,
    (message_listener_one_shot chanDemo msgQualif [msgQualif, msgQualif] 5
      { run := 5 }).2.2 (by decide)⟩⟩

set_option maxRecDepth 20000 in
/-- C5 counterexample: with the sandbox attribute unsupported, `start` does
not raise the dedicated error synchronously before any side effect: the
`throw` happens inside the executor passed to `new Promise`, which the
Promise constructor converts into a rejection of the returned promise,
and by then `this.stop()` has already blanked the previous iframe's
content and the stale iframe reference has been dropped — the world
differs from the one before the call. -/
theorem sandbox_unsupported_rejects_not_throws_cex :
    (startM false 2 (lit "return 0") priorRunWorld).promise
        = RunPromise.rejected sandboxUnsupportedMsg ∧
    (startM false 2 (lit "return 0") priorRunWorld).world ≠ priorRunWorld := by
  decide

/-- C5 amended: with the sandbox attribute unsupported, `start` fails with
the dedicated error delivered as the rejection of the promise it returns;
the failure happens before the iframe is attached (the document body is
unchanged), before any message listener is registered, and the unsafe
iframe reference is released.  The only earlier effects are those of the
initial `this.stop()`. -/
theorem sandbox_unsupported_rejected_before_attach (w : World) (rid : Nat)
    (s : List Char) :
    (startM false rid s w).promise = RunPromise.rejected sandboxUnsupportedMsg ∧
    (startM false rid s w).world.body = w.body ∧
    (startM false rid s w).world.listeners = w.listeners ∧
    (startM false rid s w).world.inst._iframe = none := by
  cases h : w.inst._iframe <;>
    simp [startM, startExecutor, stopM, h, updateFrame]

set_option maxRecDepth 20000 in
/-- C9 counterexample: after `start` inserted the iframe, `stop` does not
revert the document to its prior state: it only blanks the iframe's
content and the element stays attached to the body. -/
theorem stop_leaves_iframe_attached_cex :
    (stopM (startM true 1 (lit "return 2") emptyWorld).world).body = [0] ∧
    emptyWorld.body = [] ∧
    (stopM (startM true 1 (lit "return 2") emptyWorld).world).body ≠ emptyWorld.body := by
  decide

/-- C9 amended: the DOM delta of a run is fully reverted by `unmount`, not
by `stop`: after `start` on an instance with no live iframe, `unmount`
returns the document body to exactly its prior state, while `stop` leaves
the body unchanged from its post-`start` state (the iframe stays
attached, only its content is blanked). -/
theorem unmount_restores_document (w : World) (rid : Nat) (s : List Char)
    (h1 : w.inst._iframe = none) (h2 : w.nextId ∉ w.body) :
    (unmountM (startM true rid s w).world).body = w.body ∧
    (stopM (startM true rid s w).world).body = (startM true rid s w).world.body := by
  refine ⟨?_, stopM_body _⟩
  have hstart : (startM true rid s w).world.body = w.body ++ [w.nextId] ∧
      (startM true rid s w).world.inst._iframe = some w.nextId := by
    simp [startM, startExecutor, stopM, h1, updateFrame, h2]
  unfold unmountM
  rw [hstart.2, hstart.1]
  simp [List.erase_append_right _ h2]

/-- Witness for the amended C9 on a fresh world. -/
theorem unmount_restores_document_witness :
    (emptyWorld.inst._iframe = none ∧ emptyWorld.nextId ∉ emptyWorld.body) ∧
    ((unmountM (startM true 3 (lit "return 9") emptyWorld).world).body = emptyWorld.body ∧
     (stopM (startM true 3 (lit "return 9") emptyWorld).world).body
        = (startM true 3 (lit "return 9") emptyWorld).world.body) :=
  ⟨⟨rfl, by decide⟩, unmount_restores_document emptyWorld 3 (lit "return 9") rfl (by decide)⟩

/-- C10: on a freshly constructed instance, whose private iframe reference
is still empty, `stop` is a no-op: it runs without error and returns the
world unchanged — no document mutation, and every field of the instance
(exports, dependencies, permissions, the iframe reference) is untouched,
whatever the rest of the world looks like. -/
theorem stop_on_fresh_instance_noop (ex : List (String × Value))
    (deps : List (List Char)) (perms : List String) (frames : List (Nat × Frame))
    (body : List Nat) (ls : List Listener) (hooks : List (Nat × Nat))
    (firedLog settledLog : List (Nat × Outcome)) (warns : List String) (nid : Nat) :
    stopM
        { inst := { exports := ex, dependencies := deps, permissions := perms, _iframe := none }
          frames := frames, body := body, listeners := ls, unloadHooks := hooks
          fired := firedLog, settled := settledLog, warnings := warns, nextId := nid }
      = { inst := { exports := ex, dependencies := deps, permissions := perms, _iframe := none }
          frames := frames, body := body, listeners := ls, unloadHooks := hooks
          fired := firedLog, settled := settledLog, warnings := warns, nextId := nid } := rfl

end BrowserSandbox
